import Mathlib

/-!
Verification of the `docker-deliver` example scripts.

The repository holds three near-identical Python scripts
(`src/example/container0/hello_world.py`, `container1`, `container2`).
Each one draws a random 3×3 tensor with `torch.rand(3, 3)`, converts it
to a NumPy array with `tensor.numpy()`, and prints a banner line followed
by two labeled blocks ("Random Tensor:" and "\nConverted Numpy Array:").

The embedding below models the process-wide random source as a stream of
rational draws in [0,1), tensors and arrays as shaped lists of rationals
tagged with an element dtype, and each script's `__main__` block as a
function from the random source to a run result (the tensor, the array,
the list of printed lines, and the sequence of pipeline events).
-/

namespace DockerDeliver

/-- Element type of a tensor or array buffer. `torch.rand` produces
torch's default dtype, 32-bit floats; `tensor.numpy()` keeps the dtype. -/
inductive DType where
  | float32
  | float64
deriving DecidableEq, Repr

/-- A 2-dimensional tensor: shape, element dtype, and the row-major
buffer of element values. -/
structure Tensor where
  rows : Nat
  cols : Nat
  dtype : DType
  data : List ℚ
deriving DecidableEq, Repr

/-- A NumPy ndarray: shape, element dtype, and the row-major buffer. -/
structure NpArray where
  rows : Nat
  cols : Nat
  dtype : DType
  data : List ℚ
deriving DecidableEq, Repr

/-- The process-wide random source: a stream of draws, each uniform in
the half-open interval [0,1). Position `n` is the n-th value consumed. -/
structure RandSource where
  draw : Nat → ℚ
  draw_nonneg : ∀ n, 0 ≤ draw n
  draw_lt_one : ∀ n, draw n < 1

/-- Models the external collaborator `torch.rand(r, c)`: a fresh `r × c`
tensor of torch's default dtype (float32) whose row-major entries are the
next `r * c` draws of the random source starting at offset `pos`. -/
def torchRand (r c : Nat) (src : RandSource) (pos : Nat) : Tensor :=
  { rows := r
    cols := c
    dtype := DType.float32
    data := List.ofFn (fun i : Fin (r * c) => src.draw (pos + i)) }

/-- Models `tensor.numpy()`: the NumPy array shares the tensor's buffer,
so it has the same shape, the same dtype and, bit for bit, the same
element values. -/
def Tensor.numpy (t : Tensor) : NpArray :=
  { rows := t.rows, cols := t.cols, dtype := t.dtype, data := t.data }

/-- Comma-separated rendering of a buffer's entries. -/
def renderEntries (l : List ℚ) : String :=
  String.intercalate ", " (l.map toString)

/-- Default textual rendering of a tensor, as `print(tensor)` shows it. -/
def Tensor.render (t : Tensor) : String :=
  "tensor(" ++ renderEntries t.data ++ ")"

/-- Default textual rendering of a NumPy array, as `print(np_array)`
shows it. -/
def NpArray.render (a : NpArray) : String :=
  "array(" ++ renderEntries a.data ++ ")"

/-- The three pipeline steps a script performs. -/
inductive Event where
  | generate
  | toArray
  | report
deriving DecidableEq, Repr

/-- Everything observable about one run of a script: the tensor it drew,
the array derived from it, the lines written to standard output (one per
`print` call), and the ordered pipeline events. -/
structure RunResult where
  tensor : Tensor
  np_array : NpArray
  stdout : List String
  events : List Event

/-- Shallow embedding of the `__main__` block of
`src/example/container0/hello_world.py`. -/
def container0Run (src : RandSource) (pos : Nat) : RunResult :=
  let tensor := torchRand 3 3 src pos
  let np_array := tensor.numpy
  { tensor := tensor
    np_array := np_array
    stdout := ["Using PyTorch and NumPy", "Random Tensor:", tensor.render,
               "\nConverted Numpy Array:", np_array.render]
    events := [Event.generate, Event.toArray, Event.report] }

/-- Shallow embedding of the `__main__` block of
`src/example/container1/hello_world.py`. -/
def container1Run (src : RandSource) (pos : Nat) : RunResult :=
  let tensor := torchRand 3 3 src pos
  let np_array := tensor.numpy
  { tensor := tensor
    np_array := np_array
    stdout := ["Using PyTorch, NumPy, Matplotlib, and Scikit-learn",
               "Random Tensor:", tensor.render,
               "\nConverted Numpy Array:", np_array.render]
    events := [Event.generate, Event.toArray, Event.report] }

/-- Shallow embedding of the `__main__` block of
`src/example/container2/hello_world.py`. -/
def container2Run (src : RandSource) (pos : Nat) : RunResult :=
  let tensor := torchRand 3 3 src pos
  let np_array := tensor.numpy
  { tensor := tensor
    np_array := np_array
    stdout := ["Using PyTorch, Pandas, and NumPy", "Random Tensor:", tensor.render,
               "\nConverted Numpy Array:", np_array.render]
    events := [Event.generate, Event.toArray, Event.report] }

/-- The conversion step with an injected tensor, bypassing random
generation: the ambient random source and its position are in scope, as
they are in the scripts, but `tensor.numpy()` ignores them. -/
def toArrayInjected (t : Tensor) (_src : RandSource) (_pos : Nat) : NpArray :=
  t.numpy

/-- A random source that always draws 0. -/
def srcZero : RandSource :=
  ⟨fun _ => 0, fun _ => le_refl 0, fun _ => by norm_num⟩

/-- A random source that always draws 1/2. -/
def srcHalf : RandSource :=
  ⟨fun _ => 1 / 2, fun _ => by norm_num, fun _ => by norm_num⟩

/-- The tensor the spec's scenario constructs by hand, with entries
0.1 … 0.9 in row-major order. -/
def tensorScenario : Tensor :=
  { rows := 3
    cols := 3
    dtype := DType.float32
    data := [1/10, 2/10, 3/10, 4/10, 5/10, 6/10, 7/10, 8/10, 9/10] }

/-- The spec's claimed output shape: standard output consists of exactly
the two fixed-label blocks, in order, each label followed by a nonempty
rendering. -/
def specTwoBlockOutput (out : List String) : Prop :=
  ∃ r1 r2, r1 ≠ "" ∧ r2 ≠ "" ∧
    out = ["Random Tensor:", r1, "\nConverted Numpy Array:", r2]

/-- A rendering produced by `Tensor.render` is never the empty string. -/
theorem tensorRender_ne_empty (t : Tensor) : t.render ≠ "" := by
  intro h
  have h2 := congrArg String.length h
  simp [Tensor.render, String.length_append] at h2
  exact absurd h2.1.1 (by decide)

/-- A rendering produced by `NpArray.render` is never the empty string. -/
theorem npArrayRender_ne_empty (a : NpArray) : a.render ≠ "" := by
  intro h
  have h2 := congrArg String.length h
  simp [NpArray.render, String.length_append] at h2
  exact absurd h2.1.1 (by decide)

/-- Claim C1: for every run, the array produced by `tensor.numpy()` has
the identical shape and, element-wise, exactly identical values to the
tensor it was derived from at the moment of conversion. -/
theorem numpy_preserves_shape_and_values (t : Tensor) :
    t.numpy.rows = t.rows ∧ t.numpy.cols = t.cols ∧ t.numpy.data = t.data :=
  ⟨rfl, rfl, rfl⟩

/-- Claim C2: for every state of the random source and every offset, the
tensor produced by `torch.rand(3, 3)` has shape 3×3, its buffer holds
nine elements, and every element lies in the half-open interval [0,1). -/
theorem torchRand_shape_and_range (src : RandSource) (pos : Nat) :
    (torchRand 3 3 src pos).rows = 3 ∧ (torchRand 3 3 src pos).cols = 3 ∧
    (torchRand 3 3 src pos).data.length = 9 ∧
    ∀ q ∈ (torchRand 3 3 src pos).data, 0 ≤ q ∧ q < 1 := by
  refine ⟨rfl, rfl, by simp [torchRand], ?_⟩
  intro q hq
  simp only [torchRand, List.mem_ofFn, Set.mem_range] at hq
  obtain ⟨i, hi⟩ := hq
  exact hi ▸ ⟨src.draw_nonneg _, src.draw_lt_one _⟩

/-- Claim C3: for the tensor constructed with values
[[0.1,0.2,0.3],[0.4,0.5,0.6],[0.7,0.8,0.9]], `tensor.numpy()` yields an
array containing those exact nine values in the same row-major order. -/
theorem numpy_scenario_values :
    tensorScenario.numpy.data =
      [1/10, 2/10, 3/10, 4/10, 5/10, 6/10, 7/10, 8/10, 9/10] :=
  rfl

/-- Claim C4: the tensor and the array use the same element width — the
conversion preserves the dtype, every generated tensor and its converted
array are both float32 — and the conversion introduces no rounding: the
array's buffer is the bit-identical buffer of the tensor. -/
theorem numpy_same_width_no_rounding (t : Tensor) (src : RandSource) (pos : Nat) :
    t.numpy.dtype = t.dtype ∧ t.numpy.data = t.data ∧
    (torchRand 3 3 src pos).dtype = DType.float32 ∧
    (torchRand 3 3 src pos).numpy.dtype = DType.float32 :=
  ⟨rfl, rfl, rfl, rfl⟩

/-- Claim C5: the conversion is deterministic — for a fixed injected
tensor, bypassing random generation, two applications under arbitrary
(possibly different) states of the ambient random source yield the same
array. -/
theorem toArrayInjected_deterministic (t : Tensor)
    (s₁ s₂ : RandSource) (p₁ p₂ : Nat) :
    toArrayInjected t s₁ p₁ = toArrayInjected t s₂ p₂ :=
  rfl

/-- Claim C6, counterexample: at the concrete random source that always
draws 1/2, the standard output of container0 does not consist of exactly
the two fixed-label blocks — a banner line precedes them. -/
theorem stdout_not_only_two_blocks :
    ¬ specTwoBlockOutput (container0Run srcHalf 0).stdout := by
  rintro ⟨r1, r2, -, -, h⟩
  have h2 := congrArg List.length h
  simp [container0Run] at h2

/-- Claim C6, amended: for every run of each of the three scripts, the
standard output is the script's banner line followed by the two
fixed-label blocks in order — the label "Random Tensor:" followed by a
nonempty rendering of the tensor, then the label
"\nConverted Numpy Array:" followed by a nonempty rendering of the
array. -/
theorem stdout_banner_then_two_blocks (src : RandSource) (pos : Nat) :
    (∃ r1 r2, r1 ≠ "" ∧ r2 ≠ "" ∧
      (container0Run src pos).stdout =
        ["Using PyTorch and NumPy", "Random Tensor:", r1,
         "\nConverted Numpy Array:", r2]) ∧
    (∃ r1 r2, r1 ≠ "" ∧ r2 ≠ "" ∧
      (container1Run src pos).stdout =
        ["Using PyTorch, NumPy, Matplotlib, and Scikit-learn",
         "Random Tensor:", r1, "\nConverted Numpy Array:", r2]) ∧
    (∃ r1 r2, r1 ≠ "" ∧ r2 ≠ "" ∧
      (container2Run src pos).stdout =
        ["Using PyTorch, Pandas, and NumPy", "Random Tensor:", r1,
         "\nConverted Numpy Array:", r2]) :=
  ⟨⟨_, _, tensorRender_ne_empty _, npArrayRender_ne_empty _, rfl⟩,
   ⟨_, _, tensorRender_ne_empty _, npArrayRender_ne_empty _, rfl⟩,
   ⟨_, _, tensorRender_ne_empty _, npArrayRender_ne_empty _, rfl⟩⟩

/-- Claim C7: for every invocation of each of the three scripts, the
pipeline events are exactly generate, then toArray, then report, in that
order, each occurring exactly once. -/
theorem run_events_once_in_order (src : RandSource) (pos : Nat) :
    (container0Run src pos).events = [Event.generate, Event.toArray, Event.report] ∧
    (container1Run src pos).events = [Event.generate, Event.toArray, Event.report] ∧
    (container2Run src pos).events = [Event.generate, Event.toArray, Event.report] ∧
    ∀ e, (container0Run src pos).events.count e = 1 :=
  ⟨rfl, rfl, rfl, fun e => by cases e <;> rfl⟩

/-- Claim C8: `generate` is not constant in the random source — there
exist two states of the process-wide random source (the constant-0 and
constant-1/2 streams) whose tensors differ at every corresponding
element. -/
theorem torchRand_not_constant :
    (torchRand 3 3 srcZero 0).data ≠ (torchRand 3 3 srcHalf 0).data ∧
    List.Forall₂ (fun a b => a ≠ b)
      (torchRand 3 3 srcZero 0).data (torchRand 3 3 srcHalf 0).data := by
  constructor
  · simp only [torchRand, srcZero, srcHalf]
    norm_num [List.ofFn_succ]
  · simp only [torchRand, srcZero, srcHalf]
    norm_num [List.ofFn_succ, List.forall₂_cons]

/-- Claim C9: the three variant scripts compute the same function —
from the same random-source state and offset they produce the identical
tensor, the identical array, and identical standard output except for
the first line, which is each variant's banner. -/
theorem variants_equivalent (src : RandSource) (pos : Nat) :
    (container1Run src pos).tensor = (container0Run src pos).tensor ∧
    (container2Run src pos).tensor = (container0Run src pos).tensor ∧
    (container1Run src pos).np_array = (container0Run src pos).np_array ∧
    (container2Run src pos).np_array = (container0Run src pos).np_array ∧
    (container1Run src pos).stdout.tail = (container0Run src pos).stdout.tail ∧
    (container2Run src pos).stdout.tail = (container0Run src pos).stdout.tail ∧
    (container0Run src pos).stdout.headI = "Using PyTorch and NumPy" ∧
    (container1Run src pos).stdout.headI =
      "Using PyTorch, NumPy, Matplotlib, and Scikit-learn" ∧
    (container2Run src pos).stdout.headI = "Using PyTorch, Pandas, and NumPy" :=
  ⟨rfl, rfl, rfl, rfl, rfl, rfl, rfl, rfl, rfl⟩

/-- Claim C10: every run's standard output begins with the variant's
banner line, printed before the "Random Tensor:" label, so the output is
not limited to the two labeled blocks. -/
theorem stdout_begins_with_banner (src : RandSource) (pos : Nat) :
    (container0Run src pos).stdout.head? = some "Using PyTorch and NumPy" ∧
    (container1Run src pos).stdout.head? =
      some "Using PyTorch, NumPy, Matplotlib, and Scikit-learn" ∧
    (container2Run src pos).stdout.head? =
      some "Using PyTorch, Pandas, and NumPy" ∧
    (container0Run src pos).stdout[1]? = some "Random Tensor:" ∧
    (container1Run src pos).stdout[1]? = some "Random Tensor:" ∧
    (container2Run src pos).stdout[1]? = some "Random Tensor:" :=
  ⟨rfl, rfl, rfl, rfl, rfl, rfl⟩

end DockerDeliver
